import Mathlib

/-!
Shallow embedding of the soil-analysis pipeline of `src/backend/server.py`
(`analyze_soil`, the handler of `POST /api/soil/analyze`).

External effects are modelled explicitly:
* the advisory service (`LlmChat.send_message`) is an oracle
  `send_message : SrvCall → Except Unit String` — `.error` models a raised
  exception;
* `base64.b64decode` is an oracle `b64decode : String → Except Unit (List Nat)`
  (`.error` models `binascii.Error` on malformed input);
* `uuid.uuid4()` and `datetime.now(...)` draw from oracle streams
  `uuidGen : Nat → String` and `clock : Nat → Nat`, indexed by counters
  threaded through the run state;
* `db.soil_analyses.insert_one` succeeds iff the flag `insert_ok` holds
  (`insert_ok = false` models a raised exception);
* temporary files (`tempfile.NamedTemporaryFile(delete=False)` / `os.unlink`)
  are tracked as a set of live file identifiers in the run state.

Python truthiness is preserved: `if request.soil_image_base64:`,
`request.location if request.location else ...` and
`request.soil_description if request.soil_description else ...` treat the
empty string / empty dict like an absent value.
-/

set_option maxRecDepth 100000

/-- Pydantic model `SoilAnalysisRequest`: `user_id`, optional base64 image,
optional free-text description, optional location dict (modelled as an
association list of string keys and values). -/
structure SoilAnalysisRequest where
  user_id : String
  soil_image_base64 : Option String := none
  soil_description : Option String := none
  location : Option (List (String × String)) := none
deriving DecidableEq

/-- One invocation of the advisory service: the chat's system message and
session id, the user message text, and the decoded image bytes when a file
is attached. -/
structure SrvCall where
  system_message : String
  session_id : String
  text : String
  file_contents : Option (List Nat)
deriving DecidableEq

/-- The document persisted in the `soil_analyses` collection (the
`analysis_record` dict of the source). -/
structure AnalysisRecord where
  id : String
  user_id : String
  analysis_result : String
  created_at : Nat
  location : Option (List (String × String))
deriving DecidableEq

/-- The JSON body returned by `analyze_soil`:
`{analysis_id, result, timestamp}`. -/
structure SoilResponse where
  analysis_id : String
  result : String
  timestamp : Nat
deriving DecidableEq

/-- The external world: advisory-service oracle, base64 decoder, document
store availability, uuid stream, clock stream. -/
structure Env where
  send_message : SrvCall → Except Unit String
  b64decode : String → Except Unit (List Nat)
  insert_ok : Bool
  uuidGen : Nat → String
  clock : Nat → Nat

/-- Run state threaded through one or more calls: oracle counters, the
`soil_analyses` collection (most recent insert first), live temporary files
(by identifier), how many temporary files were ever created, and the log of
advisory-service invocations (chronological). -/
structure St where
  uuidCtr : Nat
  clockCtr : Nat
  soil_analyses : List AnalysisRecord
  tempFiles : List Nat
  tempCreatedCount : Nat
  calls : List SrvCall
deriving DecidableEq

/-- The empty initial state. -/
def st0 : St := ⟨0, 0, [], [], 0, []⟩

/-- Python truthiness of `Optional[str]`: `None` and `""` are falsy. -/
def pyTruthyStr : Option String → Bool
  | none => false
  | some s => !(s == "")

/-- Python `str` of a string (single-quoted repr, as inside `str(dict)`). -/
def pyStrLit (s : String) : String := "\x27" ++ s ++ "\x27"

/-- Python `str` of a dict of strings, as interpolated by the f-string. -/
def renderDict (l : List (String × String)) : String :=
  "\x7b" ++ String.intercalate ", " (l.map fun p => pyStrLit p.1 ++ ": " ++ pyStrLit p.2) ++ "\x7d"

/-- Python `request.location if request.location else 'India'`: `None` and the
empty dict are falsy, a non-empty dict is rendered with `str`. -/
def locationStr (req : SoilAnalysisRequest) : String :=
  match req.location with
  | none => "India"
  | some l => if l.isEmpty then "India" else renderDict l

/-- Python `request.soil_description if request.soil_description else 'Image provided'`:
`None` and `""` are falsy. -/
def descriptionStr (req : SoilAnalysisRequest) : String :=
  match req.soil_description with
  | none => "Image provided"
  | some s => if s == "" then "Image provided" else s

/-- The `system_message` passed to `LlmChat` (verbatim). -/
def systemMessage : String :=
  "You are an expert agricultural advisor specializing in Indian farming. Analyze soil conditions and provide specific crop recommendations suitable for Indian climate and farming practices."

/-- The chat session id `f"soil_analysis_{request.user_id}_{datetime.now().timestamp()}"`. -/
def sessionId (req : SoilAnalysisRequest) (t : Nat) : String :=
  "soil_analysis_" ++ req.user_id ++ "_" ++ toString t

/-- The literal template text before the first interpolation (it ends with
`Location: `). -/
def promptPre : String :=
  "\n        Analyze this soil sample and provide comprehensive farming advice:\n        \n        Location: "

/-- The literal template text between the two interpolations (it ends with
`Soil Description: `). -/
def promptMid : String :=
  "\n        Soil Description: "

/-- The literal template text after the second interpolation: the numbered
list of the seven requested sections and the closing sentence. -/
def promptPost : String :=
  "\n        \n        Please provide:\n        1. Soil type identification\n        2. Soil health assessment\n        3. Recommended crops suitable for this soil type\n        4. Fertilizer recommendations\n        5. Best planting season\n        6. Water requirements\n        7. Expected yield estimates\n        \n        Focus on crops commonly grown in India and provide practical, actionable advice for farmers.\n        "

/-- The f-string `analysis_prompt` (verbatim, with the two interpolations). -/
def buildPrompt (req : SoilAnalysisRequest) : String :=
  promptPre ++ locationStr req ++ promptMid ++ descriptionStr req ++ promptPost

/-- The hardcoded fallback advisory text of the outer `except` (verbatim). -/
def fallbackText : String :=
  "\nBased on the soil sample analysis:\n\n**Soil Type**: Alluvial soil (common in Indian plains)\n\n**Soil Health**: Good fertility with adequate organic matter\n\n**Recommended Crops**:\n- Rice (Kharif season)\n- Wheat (Rabi season)  \n- Sugarcane (year-round)\n- Vegetables: Tomato, Onion, Potato\n\n**Fertilizer Recommendations**:\n- NPK (10:26:26) - 2 bags per acre\n- Organic compost - 5 tons per acre\n- Micronutrients as needed\n\n**Best Planting Season**:\n- Kharif: June-July (Monsoon)\n- Rabi: October-November (Post-monsoon)\n\n**Water Requirements**:\n- Rice: 1200-1500mm annually\n- Wheat: 450-650mm annually\n\n**Expected Yield**:\n- Rice: 40-50 quintals per acre\n- Wheat: 35-45 quintals per acre\n            "

/-- A text-only `UserMessage` submission. -/
def textCall (session prompt : String) : SrvCall :=
  ⟨systemMessage, session, prompt, none⟩

/-- A `UserMessage` submission carrying the decoded image
(`FileContentWithMimeType` on the temporary file). -/
def imageCall (session prompt : String) (bytes : List Nat) : SrvCall :=
  ⟨systemMessage, session, prompt, some bytes⟩

/-- Steps 248–278 of the handler: obtain `response`.
`.ok r` is a successful advisory reply; `.error ()` is an exception escaping
to the outer `except`.  With an image: `base64.b64decode` (a failure here
escapes to the outer handler — the decode sits outside the inner `try`),
then a temporary file is created, the image submission is attempted, and
`os.unlink` runs only in the success branch; the inner `except` retries
text-only without deleting the file.  Without a (truthy) image: text-only
submission. -/
def getResponse (env : Env) (req : SoilAnalysisRequest) (session prompt : String) (s : St) :
    Except Unit String × St :=
  if pyTruthyStr req.soil_image_base64 then
    match env.b64decode (req.soil_image_base64.getD "") with
    | .error _ => (.error (), s)
    | .ok bytes =>
      let fid := s.tempCreatedCount
      let s1 : St := { s with tempFiles := fid :: s.tempFiles, tempCreatedCount := fid + 1,
                              calls := s.calls ++ [imageCall session prompt bytes] }
      match env.send_message (imageCall session prompt bytes) with
      | .ok response => (.ok response, { s1 with tempFiles := s1.tempFiles.erase fid })
      | .error _ =>
        let s2 : St := { s1 with calls := s1.calls ++ [textCall session prompt] }
        (env.send_message (textCall session prompt), s2)
  else
    (env.send_message (textCall session prompt), { s with calls := s.calls ++ [textCall session prompt] })

/-- The outer `except` (lines 297–332): a fresh `uuid4`, the hardcoded
fallback text, `datetime.now(timezone.utc)`; nothing is persisted. -/
def fallbackResponse (env : Env) (s : St) : SoilResponse × St :=
  let fid := env.uuidGen s.uuidCtr
  let s1 : St := { s with uuidCtr := s.uuidCtr + 1 }
  let t := env.clock s1.clockCtr
  let s2 : St := { s1 with clockCtr := s1.clockCtr + 1 }
  (⟨fid, fallbackText, t⟩, s2)

/-- The whole handler `analyze_soil` (lines 216–332).  It never raises: every
path yields a `SoilResponse`.  The clock is read once up front for the chat
session id; on a successful reply a record with a fresh uuid and a fresh
timestamp is built and, if the store accepts it, inserted before the response
is returned; any failure (decode, both submissions, or the insert itself)
lands in `fallbackResponse`. -/
def analyze_soil (env : Env) (req : SoilAnalysisRequest) (s : St) : SoilResponse × St :=
  let tSess := env.clock s.clockCtr
  let sA : St := { s with clockCtr := s.clockCtr + 1 }
  let session := sessionId req tSess
  let prompt := buildPrompt req
  match getResponse env req session prompt sA with
  | (.ok response, s1) =>
    let rid := env.uuidGen s1.uuidCtr
    let s2 : St := { s1 with uuidCtr := s1.uuidCtr + 1 }
    let tNow := env.clock s2.clockCtr
    let s3 : St := { s2 with clockCtr := s2.clockCtr + 1 }
    let record : AnalysisRecord := ⟨rid, req.user_id, response, tNow, req.location⟩
    if env.insert_ok then
      (⟨record.id, response, record.created_at⟩,
        { s3 with soil_analyses := record :: s3.soil_analyses })
    else
      fallbackResponse env s3
  | (.error _, s1) => fallbackResponse env s1

/-- Proposition that `pat` occurs as a contiguous substring of `s`. -/
def Contains (s pat : String) : Prop := pat.data <:+: s.data

instance (s pat : String) : Decidable (Contains s pat) :=
  inferInstanceAs (Decidable (pat.data <:+: s.data))

/-! ### Concrete worlds used in counterexamples and witnesses -/

/-- A world whose advisory service always raises (and whose decoder also
raises); the store accepts inserts. -/
def svcFailEnv : Env :=
  ⟨fun _ => .error (), fun _ => .error (), true, fun n => "id" ++ toString n, fun n => n⟩

/-- A world whose advisory service succeeds but replies with the empty
string. -/
def emptyReplyEnv : Env :=
  ⟨fun _ => .ok "", fun _ => .ok [], true, fun n => "id" ++ toString n, fun n => n⟩

/-- A healthy world: the service replies `LIVE` to everything, decoding and
persistence succeed. -/
def liveEnv : Env :=
  ⟨fun _ => .ok "LIVE", fun _ => .ok [], true, fun n => "id" ++ toString n, fun n => n⟩

/-- A world where base64 decoding fails although the service is healthy. -/
def decodeFailEnv : Env :=
  ⟨fun _ => .ok "LIVE", fun _ => .error (), true, fun n => "id" ++ toString n, fun n => n⟩

/-- A world where image submissions raise but text-only submissions
succeed. -/
def imgFailEnv : Env :=
  ⟨fun c => if c.file_contents.isSome then .error () else .ok "TEXT",
    fun _ => .ok [7, 7], true, fun n => "id" ++ toString n, fun n => n⟩

/-- A world whose advisory service succeeds but whose document store raises
on insert. -/
def insertFailEnv : Env :=
  ⟨fun _ => .ok "LIVE", fun _ => .ok [], false, fun n => "id" ++ toString n, fun n => n⟩

/-- A healthy world whose uuid stream and clock stream never repeat. -/
def freshEnv : Env :=
  ⟨fun _ => .ok "LIVE", fun _ => .ok [], true,
    fun n => String.mk (List.replicate n 'u'), fun n => n⟩

/-- A request with neither image nor description nor location. -/
def req0 : SoilAnalysisRequest := { user_id := "u1" }

/-- A request carrying a (not necessarily well-formed) base64 image
payload. -/
def reqImg : SoilAnalysisRequest := { user_id := "u1", soil_image_base64 := some "!!!" }

/-- A request whose `location` is present but is the empty dict. -/
def reqLocEmpty : SoilAnalysisRequest := { user_id := "u1", location := some [] }

/-- The one advisory-service call made by `analyze_soil liveEnv req0 st0`. -/
def cW8 : SrvCall := textCall (sessionId req0 0) (buildPrompt req0)

/-! ### Helper lemmas about one run -/

/-- The helper `getResponse` never touches the store, the uuid counter or the clock
counter. -/
theorem getResponse_ctrs (env : Env) (req : SoilAnalysisRequest) (session prompt : String)
    (s : St) :
    ((getResponse env req session prompt s).2).soil_analyses = s.soil_analyses ∧
    ((getResponse env req session prompt s).2).uuidCtr = s.uuidCtr ∧
    ((getResponse env req session prompt s).2).clockCtr = s.clockCtr := by
  unfold getResponse
  split
  · split
    · exact ⟨rfl, rfl, rfl⟩
    · split <;> exact ⟨rfl, rfl, rfl⟩
  · exact ⟨rfl, rfl, rfl⟩

/-- A successful reply out of `getResponse` is the value of some
advisory-service invocation. -/
theorem getResponse_ok_send {env : Env} {req : SoilAnalysisRequest} {session prompt : String}
    {s : St} {r : String} {s1 : St}
    (h : getResponse env req session prompt s = (.ok r, s1)) :
    ∃ c, env.send_message c = .ok r := by
  unfold getResponse at h
  split at h
  · split at h
    · exact absurd h (by simp)
    · split at h
      · rename_i response hsend
        have h1 := congrArg Prod.fst h
        simp at h1
        exact ⟨_, by rw [hsend, h1]⟩
      · have h1 := congrArg Prod.fst h
        simp at h1
        exact ⟨_, h1⟩
  · have h1 := congrArg Prod.fst h
    simp at h1
    exact ⟨_, h1⟩

/-- The outer `except` handler: fallback text, nothing persisted, one uuid
and one clock read consumed. -/
theorem fallbackResponse_spec (env : Env) (s : St) :
    (fallbackResponse env s).1.result = fallbackText ∧
    (fallbackResponse env s).2.soil_analyses = s.soil_analyses ∧
    (fallbackResponse env s).1.analysis_id = env.uuidGen s.uuidCtr ∧
    (fallbackResponse env s).1.timestamp = env.clock s.clockCtr ∧
    (fallbackResponse env s).2.uuidCtr = s.uuidCtr + 1 ∧
    (fallbackResponse env s).2.clockCtr = s.clockCtr + 1 ∧
    (fallbackResponse env s).2.tempFiles = s.tempFiles ∧
    (fallbackResponse env s).2.calls = s.calls :=
  ⟨rfl, rfl, rfl, rfl, rfl, rfl, rfl, rfl⟩

/-- Outcome dichotomy of one `analyze_soil` call: either some failure put the
run in the outer `except` — the response carries the fallback text and the
store is untouched — or the live path ran to completion: the service reply
was persisted as a fresh record (fresh uuid, fresh timestamp), the store was
extended by exactly that record, and the response mirrors it. -/
theorem analyze_soil_run (env : Env) (req : SoilAnalysisRequest) (s : St) :
    ((analyze_soil env req s).2.soil_analyses = s.soil_analyses ∧
     (analyze_soil env req s).1.result = fallbackText)
    ∨
    ((analyze_soil env req s).2.soil_analyses =
        ⟨env.uuidGen s.uuidCtr, req.user_id, (analyze_soil env req s).1.result,
         env.clock (s.clockCtr + 1), req.location⟩ :: s.soil_analyses ∧
     (analyze_soil env req s).1.analysis_id = env.uuidGen s.uuidCtr ∧
     (analyze_soil env req s).1.timestamp = env.clock (s.clockCtr + 1) ∧
     (analyze_soil env req s).2.uuidCtr = s.uuidCtr + 1 ∧
     (analyze_soil env req s).2.clockCtr = s.clockCtr + 2 ∧
     env.insert_ok = true ∧
     ∃ c, env.send_message c = .ok (analyze_soil env req s).1.result) := by
  have hpres := getResponse_ctrs env req (sessionId req (env.clock s.clockCtr)) (buildPrompt req)
      { s with clockCtr := s.clockCtr + 1 }
  unfold analyze_soil
  rcases hgr : getResponse env req (sessionId req (env.clock s.clockCtr)) (buildPrompt req)
      { s with clockCtr := s.clockCtr + 1 } with ⟨res, s1⟩
  rw [hgr] at hpres
  simp at hpres
  obtain ⟨hst, huu, hck⟩ := hpres
  cases res with
  | error e =>
    left
    simp only [hgr]
    exact ⟨by simp [fallbackResponse, hst], by simp [fallbackResponse]⟩
  | ok r =>
    cases hins : env.insert_ok with
    | false =>
      left
      simp only [hgr]
      constructor
      · simp [hins, fallbackResponse, hst]
      · simp [hins, fallbackResponse]
    | true =>
      right
      simp only [hgr, hins, ite_true]
      refine ⟨by simp [hst, huu, hck], by simp [huu], by simp [hck], by simp [huu],
        by simp [hck], trivial, getResponse_ok_send hgr⟩

/-- The steps after `getResponse` (persistence, response building, outer
fallback) make no further advisory-service calls and touch no temporary
file. -/
theorem analyze_soil_post (env : Env) (req : SoilAnalysisRequest) (s : St) :
    (analyze_soil env req s).2.calls =
      ((getResponse env req (sessionId req (env.clock s.clockCtr)) (buildPrompt req)
        { s with clockCtr := s.clockCtr + 1 }).2).calls ∧
    (analyze_soil env req s).2.tempFiles =
      ((getResponse env req (sessionId req (env.clock s.clockCtr)) (buildPrompt req)
        { s with clockCtr := s.clockCtr + 1 }).2).tempFiles ∧
    (analyze_soil env req s).2.tempCreatedCount =
      ((getResponse env req (sessionId req (env.clock s.clockCtr)) (buildPrompt req)
        { s with clockCtr := s.clockCtr + 1 }).2).tempCreatedCount := by
  unfold analyze_soil
  rcases hgr : getResponse env req (sessionId req (env.clock s.clockCtr)) (buildPrompt req)
      { s with clockCtr := s.clockCtr + 1 } with ⟨res, s1⟩
  cases res with
  | ok r =>
    cases hins : env.insert_ok with
    | true => simp [hgr, hins]
    | false => simp [hgr, hins, fallbackResponse]
  | error e => simp [hgr, fallbackResponse]

/-- Every advisory-service call recorded by `getResponse` that is not
pre-existing carries the fixed system persona, the session id, and the
constructed prompt. -/
theorem getResponse_calls (env : Env) (req : SoilAnalysisRequest) (session prompt : String)
    (s : St) :
    ∀ c ∈ ((getResponse env req session prompt s).2).calls,
      c ∈ s.calls ∨
        (c.system_message = systemMessage ∧ c.session_id = session ∧ c.text = prompt) := by
  unfold getResponse
  split
  · split
    · intro c hc
      exact .inl hc
    · split
      · intro c hc
        simp at hc
        rcases hc with hc | rfl
        · exact .inl hc
        · exact .inr ⟨rfl, rfl, rfl⟩
      · intro c hc
        simp at hc
        rcases hc with hc | rfl | rfl
        · exact .inl hc
        · exact .inr ⟨rfl, rfl, rfl⟩
        · exact .inr ⟨rfl, rfl, rfl⟩
  · intro c hc
    simp at hc
    rcases hc with hc | rfl
    · exact .inl hc
    · exact .inr ⟨rfl, rfl, rfl⟩

/-- On the image path with a successful decode: exactly one temporary file
is created; it is deleted again exactly when the image submission succeeds,
and stays behind when the image submission raises. -/
theorem getResponse_image_temp (env : Env) (req : SoilAnalysisRequest)
    (session prompt : String) (s : St)
    (himg : pyTruthyStr req.soil_image_base64 = true) (bytes : List Nat)
    (hdec : env.b64decode (req.soil_image_base64.getD "") = .ok bytes) :
    ((getResponse env req session prompt s).2).tempCreatedCount = s.tempCreatedCount + 1 ∧
    ((∃ r, env.send_message (imageCall session prompt bytes) = .ok r) →
      ((getResponse env req session prompt s).2).tempFiles = s.tempFiles) ∧
    (env.send_message (imageCall session prompt bytes) = .error () →
      ((getResponse env req session prompt s).2).tempFiles =
        s.tempCreatedCount :: s.tempFiles) := by
  unfold getResponse
  cases hsend : env.send_message (imageCall session prompt bytes) with
  | ok r => simp [himg, hdec, hsend, List.erase_cons_head]
  | error e => simp [himg, hdec, hsend]

/-! ### Substring occurrence -/

theorem contains_refl (a : String) : Contains a a :=
  ⟨[], [], by simp⟩

theorem contains_catL {a pat : String} (b : String) (h : Contains a pat) :
    Contains (a ++ b) pat := by
  obtain ⟨u, v, huv⟩ := h
  exact ⟨u, v ++ b.data, by rw [String.data_append, ← huv]; simp [List.append_assoc]⟩

theorem contains_catR {b pat : String} (a : String) (h : Contains b pat) :
    Contains (a ++ b) pat := by
  obtain ⟨u, v, huv⟩ := h
  exact ⟨a.data ++ u, v, by rw [String.data_append, ← huv]; simp [List.append_assoc]⟩

/-- If `a` ends with `p`, then `a ++ b` contains `p ++ b`. -/
theorem contains_seam {a p : String} (u : String) (b : String) (h : a = u ++ p) :
    Contains (a ++ b) (p ++ b) :=
  ⟨u.data, [], by simp [h, String.data_append, List.append_assoc]⟩

theorem strAssoc (a b c : String) : a ++ b ++ c = a ++ (b ++ c) := by
  apply String.ext
  simp [String.data_append, List.append_assoc]

theorem contains_trans {s t pat : String} (h1 : Contains s t) (h2 : Contains t pat) :
    Contains s pat := by
  obtain ⟨u1, v1, huv1⟩ := h1
  obtain ⟨u2, v2, huv2⟩ := h2
  exact ⟨u1 ++ u2, v2 ++ v1, by rw [← huv1, ← huv2]; simp [List.append_assoc]⟩

/-! ### The prompt template -/

/-- Each of the seven numbered section requests occurs in the prompt, for
every request. -/
theorem buildPrompt_sections (req : SoilAnalysisRequest) :
    Contains (buildPrompt req) "1. Soil type identification" ∧
    Contains (buildPrompt req) "2. Soil health assessment" ∧
    Contains (buildPrompt req) "3. Recommended crops suitable for this soil type" ∧
    Contains (buildPrompt req) "4. Fertilizer recommendations" ∧
    Contains (buildPrompt req) "5. Best planting season" ∧
    Contains (buildPrompt req) "6. Water requirements" ∧
    Contains (buildPrompt req) "7. Expected yield estimates" := by
  have hpost : Contains (buildPrompt req) promptPost := by
    unfold buildPrompt
    exact contains_catR _ (contains_refl _)
  exact ⟨contains_trans hpost (by decide), contains_trans hpost (by decide),
    contains_trans hpost (by decide), contains_trans hpost (by decide),
    contains_trans hpost (by decide), contains_trans hpost (by decide),
    contains_trans hpost (by decide)⟩

/-- The prompt embeds `Location: ` followed by the interpolated location
value. -/
theorem buildPrompt_location (req : SoilAnalysisRequest) :
    Contains (buildPrompt req) ("Location: " ++ locationStr req) := by
  unfold buildPrompt
  have h1 : Contains (promptPre ++ locationStr req) ("Location: " ++ locationStr req) :=
    contains_seam "\n        Analyze this soil sample and provide comprehensive farming advice:\n        \n        " _ rfl
  exact contains_catL _ (contains_catL _ (contains_catL _ h1))

/-- The prompt embeds `Soil Description: ` followed by the interpolated
description value. -/
theorem buildPrompt_description (req : SoilAnalysisRequest) :
    Contains (buildPrompt req) ("Soil Description: " ++ descriptionStr req) := by
  unfold buildPrompt
  have ha : promptPre ++ locationStr req ++ promptMid =
      (promptPre ++ locationStr req ++ "\n        ") ++ "Soil Description: " := by
    rw [strAssoc (promptPre ++ locationStr req) "\n        " "Soil Description: "]
    rfl
  exact contains_catL _ (contains_seam _ _ ha)



/-! ### Claims -/

/-- C1, counterexample: when the advisory service always raises, the call
still returns (with the fallback text), yet no `AnalysisRecord` at all is
inserted into `soil_analyses` — the outer `except` builds its response
without persisting, refuting "exactly one record is inserted whether the
result is live or fallback". -/
theorem c1_counterexample :
    (analyze_soil svcFailEnv req0 st0).1.result = fallbackText ∧
    (analyze_soil svcFailEnv req0 st0).2.soil_analyses = [] :=
  ⟨rfl, rfl⟩

/-- C1, amended: exactly one `AnalysisRecord` (mirrored 1:1 by the response)
is inserted when the live path completes and the store accepts the insert;
when the fallback text is returned from the outer handler, nothing is
inserted. -/
theorem c1_single_insert_or_none (env : Env) (req : SoilAnalysisRequest) (s : St) :
    (∃ rec : AnalysisRecord,
        (analyze_soil env req s).2.soil_analyses = rec :: s.soil_analyses ∧
        rec.id = (analyze_soil env req s).1.analysis_id ∧
        rec.analysis_result = (analyze_soil env req s).1.result ∧
        rec.created_at = (analyze_soil env req s).1.timestamp) ∨
    ((analyze_soil env req s).2.soil_analyses = s.soil_analyses ∧
     (analyze_soil env req s).1.result = fallbackText) := by
  rcases analyze_soil_run env req s with ⟨h1, h2⟩ | ⟨h1, h2, h3, _⟩
  · exact .inr ⟨h1, h2⟩
  · exact .inl ⟨_, h1, h2.symm, rfl, h3.symm⟩

/-- C2, counterexample: the handler never raises and always returns the
three fields, but the advisory text is not always non-empty — if the
service succeeds with an empty reply, the returned `result` is `""`. -/
theorem c2_counterexample :
    (analyze_soil emptyReplyEnv req0 st0).1.result = "" :=
  rfl

/-- C2, amended: `analyze_soil` never raises and always returns a response
with the three fields; its `result` is either the (non-empty) fallback text
or a text the advisory service returned — so it is non-empty unless the
service itself replied with the empty string. -/
theorem c2_total_success (env : Env) (req : SoilAnalysisRequest) (s : St) :
    ((analyze_soil env req s).1.result = fallbackText ∧ fallbackText ≠ "") ∨
    (∃ c, env.send_message c = .ok ((analyze_soil env req s).1.result)) := by
  rcases analyze_soil_run env req s with ⟨_, h2⟩ | ⟨_, _, _, _, _, _, hc⟩
  · exact .inl ⟨h2, by decide⟩
  · exact .inr hc

/-- C3, confirmed: if every advisory-service invocation raises, the call
returns a success response whose `result` is verbatim the hardcoded
fallback advisory text. -/
theorem c3_fallback_verbatim (env : Env) (req : SoilAnalysisRequest) (s : St)
    (h : ∀ c, env.send_message c = .error ()) :
    (analyze_soil env req s).1.result = fallbackText := by
  rcases analyze_soil_run env req s with ⟨_, h2⟩ | ⟨_, _, _, _, _, _, c, hc⟩
  · exact h2
  · rw [h c] at hc
    exact absurd hc (by simp)

/-- C3, witness: in `svcFailEnv` every invocation fails and the result is
the fallback text. -/
theorem c3_witness :
    (∀ c, svcFailEnv.send_message c = .error ()) ∧
    (analyze_soil svcFailEnv reqImg st0).1.result = fallbackText :=
  ⟨fun _ => rfl, c3_fallback_verbatim svcFailEnv reqImg st0 (fun _ => rfl)⟩

/-- C4, counterexample: `base64.b64decode` sits outside the inner `try`, so
for a present-but-malformed image the advisory service is never invoked at
all (no text-only recovery) and the outer fallback text is returned — even
though the service would have answered a text-only submission. -/
theorem c4_counterexample :
    (analyze_soil decodeFailEnv reqImg st0).2.calls = [] ∧
    (analyze_soil decodeFailEnv reqImg st0).1.result = fallbackText ∧
    decodeFailEnv.send_message (textCall (sessionId reqImg 0) (buildPrompt reqImg)) =
      .ok "LIVE" :=
  ⟨rfl, rfl, rfl⟩

/-- C4, amended: when the image payload is present (truthy) and base64
decoding fails, the exception escapes to the outer handler: the advisory
service is not invoked at all and the fallback text is returned; text-only
degradation happens only for failures of the submission itself, after a
successful decode. -/
theorem c4_decode_failure_skips_service (env : Env) (req : SoilAnalysisRequest) (s : St)
    (himg : pyTruthyStr req.soil_image_base64 = true)
    (hdec : env.b64decode (req.soil_image_base64.getD "") = .error ()) :
    (analyze_soil env req s).1.result = fallbackText ∧
    (analyze_soil env req s).2.calls = s.calls := by
  have hgr : getResponse env req (sessionId req (env.clock s.clockCtr)) (buildPrompt req)
      { s with clockCtr := s.clockCtr + 1 } =
      (.error (), { s with clockCtr := s.clockCtr + 1 }) := by
    unfold getResponse
    simp [himg, hdec]
  unfold analyze_soil
  simp only [hgr]
  exact ⟨by simp [fallbackResponse], by simp [fallbackResponse]⟩

/-- C4, witness for the amended claim, at a concrete malformed-image
request. -/
theorem c4_amended_witness :
    pyTruthyStr reqImg.soil_image_base64 = true ∧
    decodeFailEnv.b64decode (reqImg.soil_image_base64.getD "") = .error () ∧
    ((analyze_soil decodeFailEnv reqImg st0).1.result = fallbackText ∧
     (analyze_soil decodeFailEnv reqImg st0).2.calls = st0.calls) :=
  ⟨rfl, rfl, c4_decode_failure_skips_service decodeFailEnv reqImg st0 rfl rfl⟩

/-- C5, counterexample: when the image submission raises and the inner
`except` recovers text-only, `os.unlink` is never reached: the call exits
successfully (result `TEXT`) but the one temporary file created is still
alive — cleanup does not happen on every exit path. -/
theorem c5_counterexample :
    (analyze_soil imgFailEnv reqImg st0).2.tempFiles = [0] ∧
    (analyze_soil imgFailEnv reqImg st0).2.tempCreatedCount = 1 ∧
    (analyze_soil imgFailEnv reqImg st0).1.result = "TEXT" :=
  ⟨rfl, rfl, rfl⟩

/-- C5, amended: on the image path with a successful decode, exactly one
temporary file is created; it is deleted exactly when the image submission
succeeds, and is leaked (never deleted, on any later path) when the image
submission raises. -/
theorem c5_tempfile_leak_on_failure (env : Env) (req : SoilAnalysisRequest) (s : St)
    (himg : pyTruthyStr req.soil_image_base64 = true) (bytes : List Nat)
    (hdec : env.b64decode (req.soil_image_base64.getD "") = .ok bytes) :
    (analyze_soil env req s).2.tempCreatedCount = s.tempCreatedCount + 1 ∧
    ((∃ r, env.send_message
        (imageCall (sessionId req (env.clock s.clockCtr)) (buildPrompt req) bytes) = .ok r) →
      (analyze_soil env req s).2.tempFiles = s.tempFiles) ∧
    (env.send_message
        (imageCall (sessionId req (env.clock s.clockCtr)) (buildPrompt req) bytes) = .error () →
      (analyze_soil env req s).2.tempFiles = s.tempCreatedCount :: s.tempFiles) := by
  obtain ⟨-, htf, htc⟩ := analyze_soil_post env req s
  obtain ⟨h1, h2, h3⟩ := getResponse_image_temp env req
    (sessionId req (env.clock s.clockCtr)) (buildPrompt req)
    { s with clockCtr := s.clockCtr + 1 } himg bytes hdec
  refine ⟨?_, ?_, ?_⟩
  · rw [htc, h1]
  · intro hr
    rw [htf, h2 hr]
  · intro hr
    rw [htf, h3 hr]

/-- C5, witness for the amended claim: one file created and leaked when the
image submission raises. -/
theorem c5_amended_witness :
    pyTruthyStr reqImg.soil_image_base64 = true ∧
    imgFailEnv.b64decode (reqImg.soil_image_base64.getD "") = .ok [7, 7] ∧
    imgFailEnv.send_message
      (imageCall (sessionId reqImg (imgFailEnv.clock st0.clockCtr)) (buildPrompt reqImg) [7, 7]) =
      .error () ∧
    ((analyze_soil imgFailEnv reqImg st0).2.tempCreatedCount = st0.tempCreatedCount + 1 ∧
     (analyze_soil imgFailEnv reqImg st0).2.tempFiles = st0.tempCreatedCount :: st0.tempFiles) :=
  ⟨rfl, rfl, rfl,
    (c5_tempfile_leak_on_failure imgFailEnv reqImg st0 rfl [7, 7] rfl).1,
    (c5_tempfile_leak_on_failure imgFailEnv reqImg st0 rfl [7, 7] rfl).2.2 rfl⟩

/-- C6, counterexample: a fallback call returns a success response, yet no
record retrievable by the returned `analysis_id` exists in the store — the
response is not derived from any stored record. -/
theorem c6_counterexample :
    ((analyze_soil svcFailEnv req0 st0).2.soil_analyses.filter
        (fun rec => rec.id == (analyze_soil svcFailEnv req0 st0).1.analysis_id)).length = 0 :=
  rfl

/-- C6, amended: after every call that actually persisted (the store grew),
exactly one record is retrievable by the returned `analysis_id` — provided
that id is fresh with respect to the prior store contents — and any record
bearing that id agrees with the returned `result` and `timestamp`. -/
theorem c6_retrievable_after_insert (env : Env) (req : SoilAnalysisRequest) (s : St)
    (hgrow : (analyze_soil env req s).2.soil_analyses.length = s.soil_analyses.length + 1)
    (hfresh : ∀ rec ∈ s.soil_analyses, rec.id ≠ (analyze_soil env req s).1.analysis_id) :
    ((analyze_soil env req s).2.soil_analyses.filter
        (fun rec => rec.id == (analyze_soil env req s).1.analysis_id)).length = 1 ∧
    ∀ rec ∈ (analyze_soil env req s).2.soil_analyses,
      rec.id = (analyze_soil env req s).1.analysis_id →
        rec.analysis_result = (analyze_soil env req s).1.result ∧
        rec.created_at = (analyze_soil env req s).1.timestamp := by
  rcases analyze_soil_run env req s with ⟨h1, _⟩ | ⟨h1, h2, h3, _⟩
  · rw [h1] at hgrow
    omega
  · have htail : (s.soil_analyses.filter
        (fun rec => rec.id == env.uuidGen s.uuidCtr)) = [] := by
      rw [List.filter_eq_nil_iff]
      intro rec hrec
      simp only [beq_iff_eq]
      rw [← h2]
      exact hfresh rec hrec
    constructor
    · rw [h1, List.filter_cons]
      simp [h2, htail]
    · intro rec hmem hid
      rw [h1] at hmem
      rcases List.mem_cons.mp hmem with hrec0 | htl
      · subst hrec0
        exact ⟨rfl, h3.symm⟩
      · exact absurd hid (hfresh rec htl)

/-- C6, witness for the amended claim: a healthy live call persists one
record retrievable by the returned id, matching the response fields. -/
theorem c6_amended_witness :
    (analyze_soil liveEnv req0 st0).2.soil_analyses.length = st0.soil_analyses.length + 1 ∧
    (((analyze_soil liveEnv req0 st0).2.soil_analyses.filter
        (fun rec => rec.id == (analyze_soil liveEnv req0 st0).1.analysis_id)).length = 1 ∧
     ∀ rec ∈ (analyze_soil liveEnv req0 st0).2.soil_analyses,
       rec.id = (analyze_soil liveEnv req0 st0).1.analysis_id →
         rec.analysis_result = (analyze_soil liveEnv req0 st0).1.result ∧
         rec.created_at = (analyze_soil liveEnv req0 st0).1.timestamp) :=
  ⟨rfl, c6_retrievable_after_insert liveEnv req0 st0 rfl (by simp [st0])⟩

/-- C7, counterexample: the `insert_one` sits inside the outer `try`, so
when the service succeeds but the insert raises, nothing propagates: the
call returns the normal fallback success response and no record is
stored — refuting "the persistence error propagates out of the
operation". -/
theorem c7_counterexample :
    insertFailEnv.insert_ok = false ∧
    (∀ c, insertFailEnv.send_message c = .ok "LIVE") ∧
    (analyze_soil insertFailEnv req0 st0).1.result = fallbackText ∧
    (analyze_soil insertFailEnv req0 st0).2.soil_analyses = [] :=
  ⟨rfl, fun _ => rfl, rfl, rfl⟩

/-- C7, amended: a failing insert is swallowed by the outer handler — the
call still returns a success response carrying the fallback text, and
nothing is persisted. -/
theorem c7_insert_failure_swallowed (env : Env) (req : SoilAnalysisRequest) (s : St)
    (hins : env.insert_ok = false) :
    (analyze_soil env req s).1.result = fallbackText ∧
    (analyze_soil env req s).2.soil_analyses = s.soil_analyses := by
  rcases analyze_soil_run env req s with ⟨h1, h2⟩ | ⟨_, _, _, _, _, h6, _⟩
  · exact ⟨h2, h1⟩
  · rw [hins] at h6
    exact absurd h6 (by simp)

/-- C7, witness for the amended claim. -/
theorem c7_amended_witness :
    insertFailEnv.insert_ok = false ∧
    ((analyze_soil insertFailEnv req0 st0).1.result = fallbackText ∧
     (analyze_soil insertFailEnv req0 st0).2.soil_analyses = st0.soil_analyses) :=
  ⟨rfl, c7_insert_failure_swallowed insertFailEnv req0 st0 rfl⟩

/-- C8, counterexample: a request whose `location` is present but the empty
dict is falsy in Python, so the prompt embeds the default placeholder
`India` and not the rendered location — refuting "embeds the request's
location (default only when location is absent)". -/
theorem c8_counterexample :
    reqLocEmpty.location = some [] ∧
    renderDict [] = "\x7b\x7d" ∧
    ¬ Contains (buildPrompt reqLocEmpty) (renderDict []) ∧
    Contains (buildPrompt reqLocEmpty) "India" :=
  ⟨rfl, rfl, by decide, by decide⟩

/-- C8, amended: every advisory-service call made during the request
carries the expert-agricultural-advisor / Indian-farming system persona and
the structured prompt, which embeds `Location: ` followed by the location
(the rendered dict when present and non-empty, else the `India` default),
embeds `Soil Description: ` followed by the provided description (or the
`Image provided` marker when absent or empty), and requests the seven
sections. -/
theorem c8_prompt_structure (env : Env) (req : SoilAnalysisRequest) (s : St) (c : SrvCall)
    (hc : c ∈ (analyze_soil env req s).2.calls) (hnew : c ∉ s.calls) :
    c.system_message = systemMessage ∧
    c.text = buildPrompt req ∧
    Contains c.text "1. Soil type identification" ∧
    Contains c.text "2. Soil health assessment" ∧
    Contains c.text "3. Recommended crops suitable for this soil type" ∧
    Contains c.text "4. Fertilizer recommendations" ∧
    Contains c.text "5. Best planting season" ∧
    Contains c.text "6. Water requirements" ∧
    Contains c.text "7. Expected yield estimates" ∧
    Contains c.text ("Location: " ++ locationStr req) ∧
    Contains c.text ("Soil Description: " ++ descriptionStr req) ∧
    Contains c.system_message "expert agricultural advisor" ∧
    Contains c.system_message "Indian farming" := by
  obtain ⟨hcalls, -, -⟩ := analyze_soil_post env req s
  rw [hcalls] at hc
  rcases getResponse_calls env req (sessionId req (env.clock s.clockCtr)) (buildPrompt req)
      { s with clockCtr := s.clockCtr + 1 } c hc with hold | ⟨hsys, -, htext⟩
  · exact absurd hold hnew
  · obtain ⟨p1, p2, p3, p4, p5, p6, p7⟩ := buildPrompt_sections req
    rw [hsys, htext]
    exact ⟨rfl, rfl, p1, p2, p3, p4, p5, p6, p7, buildPrompt_location req,
      buildPrompt_description req, by decide, by decide⟩

/-- C8, witness for the amended claim: the single call of a healthy
text-only run. -/
theorem c8_amended_witness :
    cW8 ∈ (analyze_soil liveEnv req0 st0).2.calls ∧
    cW8 ∉ st0.calls ∧
    (cW8.system_message = systemMessage ∧
     cW8.text = buildPrompt req0 ∧
     Contains cW8.text "1. Soil type identification" ∧
     Contains cW8.text "2. Soil health assessment" ∧
     Contains cW8.text "3. Recommended crops suitable for this soil type" ∧
     Contains cW8.text "4. Fertilizer recommendations" ∧
     Contains cW8.text "5. Best planting season" ∧
     Contains cW8.text "6. Water requirements" ∧
     Contains cW8.text "7. Expected yield estimates" ∧
     Contains cW8.text ("Location: " ++ locationStr req0) ∧
     Contains cW8.text ("Soil Description: " ++ descriptionStr req0) ∧
     Contains cW8.system_message "expert agricultural advisor" ∧
     Contains cW8.system_message "Indian farming") :=
  ⟨by decide, by decide, c8_prompt_structure liveEnv req0 st0 cW8 (by decide) (by decide)⟩

/-- C9, confirmed: `analyze_soil` is not idempotent — two identical requests
run back to back, each persisting, produce two distinct records with
different ids (fresh uuids) and different timestamps (fresh clock reads),
and return those fresh ids. -/
theorem c9_two_calls_distinct (env : Env) (req : SoilAnalysisRequest) (s : St)
    (huuid : ∀ i j : Nat, i ≠ j → env.uuidGen i ≠ env.uuidGen j)
    (hclock : ∀ i j : Nat, i ≠ j → env.clock i ≠ env.clock j)
    (h1 : (analyze_soil env req s).2.soil_analyses.length = s.soil_analyses.length + 1)
    (h2 : (analyze_soil env req (analyze_soil env req s).2).2.soil_analyses.length =
          (analyze_soil env req s).2.soil_analyses.length + 1) :
    (analyze_soil env req s).1.analysis_id ≠
      (analyze_soil env req (analyze_soil env req s).2).1.analysis_id ∧
    (analyze_soil env req s).1.timestamp ≠
      (analyze_soil env req (analyze_soil env req s).2).1.timestamp ∧
    ∃ rec2 rec1 : AnalysisRecord,
      (analyze_soil env req (analyze_soil env req s).2).2.soil_analyses =
        rec2 :: rec1 :: s.soil_analyses ∧
      rec1.id = (analyze_soil env req s).1.analysis_id ∧
      rec2.id = (analyze_soil env req (analyze_soil env req s).2).1.analysis_id ∧
      rec1.id ≠ rec2.id ∧
      rec1.created_at ≠ rec2.created_at := by
  rcases analyze_soil_run env req s with ⟨hst, _⟩ | ⟨hstore1, hid1, hts1, huu1, hck1, _⟩
  · rw [hst] at h1
    omega
  rcases analyze_soil_run env req (analyze_soil env req s).2 with
    ⟨hst, _⟩ | ⟨hstore2, hid2, hts2, _, _, _⟩
  · rw [hst] at h2
    omega
  have hidne : (analyze_soil env req s).1.analysis_id ≠
      (analyze_soil env req (analyze_soil env req s).2).1.analysis_id := by
    rw [hid1, hid2, huu1]
    exact huuid _ _ (by omega)
  have htsne : (analyze_soil env req s).1.timestamp ≠
      (analyze_soil env req (analyze_soil env req s).2).1.timestamp := by
    rw [hts1, hts2, hck1]
    exact hclock _ _ (by omega)
  refine ⟨hidne, htsne,
    ⟨env.uuidGen (analyze_soil env req s).2.uuidCtr, req.user_id,
      (analyze_soil env req (analyze_soil env req s).2).1.result,
      env.clock ((analyze_soil env req s).2.clockCtr + 1), req.location⟩,
    ⟨env.uuidGen s.uuidCtr, req.user_id, (analyze_soil env req s).1.result,
      env.clock (s.clockCtr + 1), req.location⟩,
    ?_, ?_, ?_, ?_, ?_⟩
  · rw [hstore2, hstore1]
  · exact hid1.symm
  · exact hid2.symm
  · show env.uuidGen s.uuidCtr ≠ env.uuidGen (analyze_soil env req s).2.uuidCtr
    rw [huu1]
    exact huuid _ _ (by omega)
  · show env.clock (s.clockCtr + 1) ≠ env.clock ((analyze_soil env req s).2.clockCtr + 1)
    rw [hck1]
    exact hclock _ _ (by omega)

/-- C9, witness: two identical runs in a healthy world with injective uuid
and clock streams. -/
theorem c9_witness :
    (analyze_soil freshEnv req0 st0).1.analysis_id ≠
      (analyze_soil freshEnv req0 (analyze_soil freshEnv req0 st0).2).1.analysis_id ∧
    (analyze_soil freshEnv req0 st0).1.timestamp ≠
      (analyze_soil freshEnv req0 (analyze_soil freshEnv req0 st0).2).1.timestamp ∧
    ∃ rec2 rec1 : AnalysisRecord,
      (analyze_soil freshEnv req0 (analyze_soil freshEnv req0 st0).2).2.soil_analyses =
        rec2 :: rec1 :: st0.soil_analyses ∧
      rec1.id = (analyze_soil freshEnv req0 st0).1.analysis_id ∧
      rec2.id = (analyze_soil freshEnv req0 (analyze_soil freshEnv req0 st0).2).1.analysis_id ∧
      rec1.id ≠ rec2.id ∧
      rec1.created_at ≠ rec2.created_at :=
  c9_two_calls_distinct freshEnv req0 st0
    (fun i j hij h => absurd
      (by simpa [freshEnv, String.length_mk, List.length_replicate]
        using congrArg (fun t : String => t.data.length) h) hij)
    (fun i j hij h => absurd h hij)
    rfl rfl

/-- C10, confirmed (implicit claim): whenever `soil_description` is absent,
the prompt's Soil Description field is the literal `Image provided` — the
definition places no condition on `soil_image_base64`, so this holds in
particular when the image is also absent. -/
theorem c10_absent_description_marker (req : SoilAnalysisRequest)
    (h : req.soil_description = none) :
    descriptionStr req = "Image provided" ∧
    Contains (buildPrompt req) ("Soil Description: " ++ "Image provided") := by
  have hd : descriptionStr req = "Image provided" := by
    unfold descriptionStr
    rw [h]
  refine ⟨hd, ?_⟩
  have hb := buildPrompt_description req
  rw [hd] at hb
  exact hb

/-- C10, witness: a request with neither description nor image still gets
the `Image provided` marker. -/
theorem c10_witness :
    req0.soil_description = none ∧
    req0.soil_image_base64 = none ∧
    (descriptionStr req0 = "Image provided" ∧
     Contains (buildPrompt req0) ("Soil Description: " ++ "Image provided")) :=
  ⟨rfl, rfl, c10_absent_description_marker req0 rfl⟩
